import Mathlib

/-!
Shallow embedding of the HRL macro-action execution engine of the RL-agent
repository, together with its per-tick reward shaper:

* FYP/agent_components/actions/HRL/lane_changer.py   (class LaneChanger)
* FYP/agent_components/actions/HRL/speed_changer.py  (class SpeedChanger)
* FYP/agent_components/actions/HRL/custom_actions.py (class CustomActions)
* FYP/agent_components/custom_reward.py              (class CustomReward)

Python floats are modelled as rationals, lane indices as integers.  The
wrapped simulator is modelled as an arbitrary pure function from a visible
environment state and a primitive action to a new state plus a gym-style
step tuple.  The unbounded while-loop of CustomActions.step is modelled
with fuel; a run that exhausts its fuel (or hits the unguarded division by
zero in LaneChanger.choose_action, which raises ZeroDivisionError in
Python) is reported as a diverged run and no theorem speaks about it.
-/

namespace RLAgent

/-- Vehicle state visible to the controllers.  The fields acceleration and
steering model the live command pair vehicle.action['acceleration'] and
vehicle.action['steering']; lane models lane_index[2]; lane_offset models
lane_offset[1]; posX models position[0]. -/
structure Vehicle where
  lane : ℤ
  speed : ℚ
  posX : ℚ
  lane_offset : ℚ
  heading : ℚ
  acceleration : ℚ
  steering : ℚ
  on_road : Bool
  crashed : Bool
  deriving Repr, DecidableEq

/-- Static simulator configuration read by the core: config['lanes_count']
and config['policy_frequency']. -/
structure Config where
  lanes_count : ℤ
  policy_frequency : ℚ
  deriving Repr, DecidableEq

/-- The simulator state the wrappers can query and mutate. -/
structure EnvState where
  vehicle : Vehicle
  config : Config
  deriving Repr, DecidableEq

/-- Speed bound constants of the external highway_env library
(highway_env.vehicle.kinematics.Vehicle.MIN_SPEED / MAX_SPEED). -/
def Vehicle.MIN_SPEED : ℚ := -40

/-- See Vehicle.MIN_SPEED. -/
def Vehicle.MAX_SPEED : ℚ := 40

/-- A primitive action pair [acceleration, steering]. -/
abbrev PrimAction : Type := ℚ × ℚ

/-- Observations: obs[i][j] as produced by the simulator. -/
abbrev Obs : Type := ℕ → ℕ → ℚ

/-- A value stored in the gym info dictionary. -/
inductive InfoVal where
  | int (n : ℤ)
  | rat (q : ℚ)
  | boolean (b : Bool)
  deriving Repr, DecidableEq

/-- The gym info dictionary: an insertion-ordered string-keyed map. -/
abbrev Info : Type := List (String × InfoVal)

/-- Python dict assignment info[k] = v: overwrite the binding if the key is
present, append it otherwise. -/
def Info.setKey : Info → String → InfoVal → Info
  | [], k, v => [(k, v)]
  | (k', v') :: rest, k, v =>
      if k' = k then (k, v) :: rest else (k', v') :: Info.setKey rest k v

/-- Python dict read info[k]. -/
def Info.lookup : Info → String → Option InfoVal
  | [], _ => none
  | (k', v) :: rest, k => if k' = k then some v else Info.lookup rest k

/-- One gym step tuple (observation, reward, terminated, truncated, info). -/
structure StepOut where
  obs : Obs
  reward : ℚ
  terminated : Bool
  truncated : Bool
  info : Info

/-- The wrapped environment env.step, modelled as an arbitrary pure
function of the visible state and the submitted primitive action. -/
abbrev Env : Type := EnvState → PrimAction → EnvState × StepOut

/-! ## LaneChanger (lane_changer.py) -/

/-- Fields of a LaneChanger instance as set by LaneChanger.__init__. -/
structure LaneChanger where
  change : ℤ
  destination_lane : ℤ
  step_count : ℕ
  vehicle_posX : ℚ
  target_distance : ℚ
  lane_position_tolerance : ℚ
  deriving Repr, DecidableEq

/-- LaneChanger.__init__(env, change, distance=None): destination_lane and
the start position are captured once at construction; target_distance is
Python's (distance or 0); the tolerance is (1/policy_frequency)*1.5. -/
def LaneChanger.init (s : EnvState) (change : ℤ) (distance : Option ℚ) : LaneChanger :=
  { change := change
    destination_lane := s.vehicle.lane + change
    step_count := 0
    vehicle_posX := s.vehicle.posX
    target_distance := distance.getD 0
    lane_position_tolerance := (1 / s.config.policy_frequency) * (3 / 2) }

/-- LaneChanger.reset_after_change: sets vehicle.heading to 0 and the
commanded steering to 0 on the simulator state. -/
def LaneChanger.reset_after_change (s : EnvState) : EnvState :=
  { s with vehicle := { s.vehicle with heading := 0, steering := 0 } }

/-- LaneChanger.done: returns the completion flag and the (possibly
mutated) simulator state.  Lines 85-93 of lane_changer.py: alignment is
lane equality plus lateral offset strictly inside the tolerance band; with
change == 0 the covered distance must additionally reach target_distance
(and no state is mutated on that path); otherwise reset_after_change runs
exactly when the flag is true. -/
def LaneChanger.done (c : LaneChanger) (s : EnvState) : Bool × EnvState :=
  let flag := decide (c.destination_lane = s.vehicle.lane
      ∧ c.lane_position_tolerance > s.vehicle.lane_offset
      ∧ s.vehicle.lane_offset > -c.lane_position_tolerance)
  if flag && c.change == 0 then
    (decide (s.vehicle.posX - c.vehicle_posX ≥ c.target_distance), s)
  else
    (flag, if flag then LaneChanger.reset_after_change s else s)

/-- LaneChanger.choose_action: steering is plus or minus 0.5 divided by the
current speed depending on the sign of destination_lane - current_lane, 0
when already in the destination lane; acceleration passes through from the
live action state.  Python raises ZeroDivisionError when the division is
taken at speed 0, modelled as none. -/
def LaneChanger.choose_action (c : LaneChanger) (s : EnvState) : Option PrimAction :=
  let acceleration := s.vehicle.acceleration
  let lane_difference := c.destination_lane - s.vehicle.lane
  if 0 < lane_difference then
    if s.vehicle.speed = 0 then none
    else some (acceleration, 1 / 2 / s.vehicle.speed)
  else if lane_difference < 0 then
    if s.vehicle.speed = 0 then none
    else some (acceleration, -(1 / 2 / s.vehicle.speed))
  else
    some (acceleration, 0)

/-! ## SpeedChanger (speed_changer.py) -/

/-- Fields of a SpeedChanger instance as set by SpeedChanger.__init__. -/
structure SpeedChanger where
  change : ℤ
  desired_speed : ℚ
  speed_offset : ℚ
  step_count : ℕ
  deriving Repr, DecidableEq

/-- SpeedChanger.__init__(env, change): the desired speed is captured once
at construction as current speed + change; speed_offset is
1/policy_frequency. -/
def SpeedChanger.init (s : EnvState) (change : ℤ) : SpeedChanger :=
  { change := change
    desired_speed := s.vehicle.speed + (change : ℚ)
    speed_offset := 1 / s.config.policy_frequency
    step_count := 0 }

/-- SpeedChanger.done: the flag holds iff
desired_speed - speed_offset <= current speed <= desired_speed (both ends
inclusive, lines 52-57 of speed_changer.py); when it holds the commanded
acceleration is reset to 0 on the simulator state. -/
def SpeedChanger.done (c : SpeedChanger) (s : EnvState) : Bool × EnvState :=
  let flag := decide (c.desired_speed - c.speed_offset ≤ s.vehicle.speed
      ∧ s.vehicle.speed ≤ c.desired_speed)
  (flag, if flag then { s with vehicle := { s.vehicle with acceleration := 0 } } else s)

/-- SpeedChanger.choose_action: acceleration is 0.1 below the desired
speed, -0.1 above it and 0 at it; steering passes through from the live
action state. -/
def SpeedChanger.choose_action (c : SpeedChanger) (s : EnvState) : PrimAction :=
  let steering := s.vehicle.steering
  let acceleration : ℚ :=
    if s.vehicle.speed < c.desired_speed then 1 / 10
    else if c.desired_speed < s.vehicle.speed then -(1 / 10)
    else 0
  (acceleration, steering)

/-! ## CustomActions (custom_actions.py) -/

/-- The controller held by the dispatcher: a LaneChanger or a SpeedChanger
(Python dispatches on isinstance). -/
inductive Changer where
  | lane (c : LaneChanger)
  | speed (c : SpeedChanger)
  deriving Repr, DecidableEq

/-- The step_count attribute of whichever controller is held. -/
def Changer.step_count : Changer → ℕ
  | .lane c => c.step_count
  | .speed c => c.step_count

/-- Changer.done dispatched on the controller kind. -/
def Changer.done : Changer → EnvState → Bool × EnvState
  | .lane c, s => c.done s
  | .speed c, s => c.done s

/-- One controller tick: increment the controller's step_count, compute
choose_action and submit it to the environment.  The none result models
the ZeroDivisionError escaping from LaneChanger.choose_action. -/
def Changer.step (ch : Changer) (env : Env) (s : EnvState) :
    Option (Changer × EnvState × StepOut) :=
  match ch with
  | .lane c =>
    match c.choose_action s with
    | none => none
    | some a =>
      let r := env s a
      some (.lane { c with step_count := c.step_count + 1 }, r.1, r.2)
  | .speed c =>
    let r := env s (c.choose_action s)
    some (.speed { c with step_count := c.step_count + 1 }, r.1, r.2)

/-- Counters of the CustomActions wrapper. -/
structure CA where
  HL_step_count : ℕ
  LL_step_count : ℕ
  timesteps_HL : ℕ
  timesteps_LL : ℕ
  episode_count : ℕ
  deriving Repr, DecidableEq

/-- CustomActions.HL_actions composed with the dict lookup
subpolicies[int(action)] and the construction of the chosen controller
from the current environment state; none models the KeyError raised on an
action id outside {0,...,4}. -/
def CustomActions.subpolicies (s : EnvState) (a : ℤ) : Option Changer :=
  if a = 0 then some (.lane (LaneChanger.init s 0 (some 10)))
  else if a = 1 then some (.lane (LaneChanger.init s (-1) none))
  else if a = 2 then some (.lane (LaneChanger.init s 1 none))
  else if a = 3 then some (.speed (SpeedChanger.init s (-1)))
  else if a = 4 then some (.speed (SpeedChanger.init s 1))
  else none

/-- CustomActions.lane_change_possible: the destination lane
current_lane + change must lie between leftmost_lane = 0 and
rightmost_lane = lanes_count - 1. -/
def CustomActions.lane_change_possible (s : EnvState) (change : ℤ) : Bool :=
  decide (0 ≤ s.vehicle.lane + change ∧ s.vehicle.lane + change ≤ s.config.lanes_count - 1)

/-- CustomActions.speed_change_possible: the destination speed
current speed + change must lie between Vehicle.MIN_SPEED and
Vehicle.MAX_SPEED. -/
def CustomActions.speed_change_possible (s : EnvState) (change : ℤ) : Bool :=
  decide (Vehicle.MIN_SPEED ≤ s.vehicle.speed + (change : ℚ)
      ∧ s.vehicle.speed + (change : ℚ) ≤ Vehicle.MAX_SPEED)

/-- Lines 157-163 of custom_actions.py: look the subpolicy up, then
substitute a zero-change controller of the same kind when the requested
change is infeasible. -/
def CustomActions.chooseChanger (s : EnvState) (a : ℤ) : Option Changer :=
  match CustomActions.subpolicies s a with
  | none => none
  | some ch =>
    let ch1 := match ch with
      | .lane c =>
          if CustomActions.lane_change_possible s c.change then Changer.lane c
          else .lane (LaneChanger.init s 0 none)
      | x => x
    let ch2 := match ch1 with
      | .speed c =>
          if CustomActions.speed_change_possible s c.change then Changer.speed c
          else .speed (SpeedChanger.init s 0)
      | x => x
    some ch2

/-- The low-level tick loop of CustomActions.step (lines 168-170):
while not changer.done() and not terminated: tick.  Each guard evaluation
runs changer.done with its side effects on the simulator state; prev is
the step tuple of the last executed tick.  The ghost list outs records
every executed tick's step tuple and the final Bool records the value of
the done flag at loop exit.  Fuel exhaustion returns none. -/
def CustomActions.tickLoop (env : Env) :
    ℕ → Changer → EnvState → StepOut → ℚ → List StepOut →
    Option (Changer × EnvState × StepOut × ℚ × List StepOut × Bool)
  | 0, _, _, _, _, _ => none
  | fuel + 1, ch, s, prev, cum, outs =>
    let d := (ch.done s).1
    let s' := (ch.done s).2
    if d || prev.terminated then
      some (ch, s', prev, cum, outs, d)
    else
      match ch.step env s' with
      | none => none
      | some (ch', s'', out) =>
        CustomActions.tickLoop env fuel ch' s'' out (cum + out.reward) (outs ++ [out])

/-- Result of one CustomActions.step call.  keyError models the KeyError
of the subpolicy lookup and carries the unchanged wrapper counters and
simulator state; diverged covers fuel exhaustion and the unguarded
ZeroDivisionError; ok carries the updated counters, the final simulator
state, the step tuple of the final low-level tick, the returned info
dictionary, the cumulative reward, the ghost trace of all executed ticks,
the controller's final step_count and the done flag at loop exit. -/
inductive StepResult where
  | keyError (ca : CA) (s : EnvState)
  | diverged
  | ok (ca : CA) (s : EnvState) (final : StepOut) (retInfo : Info) (cum : ℚ)
      (outs : List StepOut) (ticks : ℕ) (exitDone : Bool)

/-- CustomActions.step (lines 146-183 of custom_actions.py): subpolicy
lookup, feasibility substitution, one unconditional tick, the tick loop,
the counter updates and the info injections. -/
def CustomActions.step (env : Env) (fuel : ℕ) (ca : CA) (s : EnvState) (action : ℤ) :
    StepResult :=
  match CustomActions.chooseChanger s action with
  | none => .keyError ca s
  | some ch =>
    match ch.step env s with
    | none => .diverged
    | some (ch1, s1, out1) =>
      match CustomActions.tickLoop env fuel ch1 s1 out1 out1.reward [out1] with
      | none => .diverged
      | some (chF, sF, outF, cum, outs, exitD) =>
        let ca' : CA :=
          { HL_step_count := ca.HL_step_count + 1
            LL_step_count := ca.LL_step_count + chF.step_count
            timesteps_HL := ca.timesteps_HL + 1
            timesteps_LL := ca.timesteps_LL + chF.step_count
            episode_count := ca.episode_count }
        let info1 := Info.setKey outF.info "HL_step_count" (.int (ca'.HL_step_count : ℤ))
        let info2 := Info.setKey info1 "LL_step_count" (.int (ca'.LL_step_count : ℤ))
        let info3 := Info.setKey info2 "pos_x" (.rat (outF.obs 0 1))
        let info4 := Info.setKey info3 "pos_y" (.rat (outF.obs 0 2))
        .ok ca' sF outF info4 cum outs chF.step_count exitD

/-! ## CustomReward (custom_reward.py) -/

/-- highway_env.utils.lmap (external library helper used by
CustomReward.calculate_speed_reward and compute_final_reward): linear map
of v from the interval x to the interval y. -/
def lmap (v : ℚ) (x y : ℚ × ℚ) : ℚ :=
  y.1 + (v - x.1) * (y.2 - y.1) / (x.2 - x.1)

/-- numpy.clip(v, lo, hi). -/
def clip (v lo hi : ℚ) : ℚ := min (max v lo) hi

/-- CustomReward.calculate_lane_reward: current lane index divided by
max(total_lanes - 1, 1) when the lateral offset is strictly inside the
tolerance band, 0 otherwise. -/
def CustomReward.calculate_lane_reward (tol : ℚ) (lane : ℤ) (total_lanes : ℕ)
    (offset : ℚ) : ℚ :=
  if tol > offset ∧ offset > -tol then (lane : ℚ) / ((max ((total_lanes : ℤ) - 1) 1 : ℤ) : ℚ)
  else 0

/-- CustomReward.calculate_speed_reward: forward speed speed*cos(heading)
linearly mapped from reward_speed_range to [0,1]; zero when the linear map
exceeds 1, the clip to [0,1] otherwise.  numpy's cosine is external, so the
value cos(heading) enters as the argument cos_heading. -/
def CustomReward.calculate_speed_reward (reward_speed_range : ℚ × ℚ)
    (speed cos_heading : ℚ) : ℚ :=
  let forward_speed := speed * cos_heading
  let scaled_speed := lmap forward_speed reward_speed_range (0, 1)
  if scaled_speed > 1 then 0 else clip scaled_speed 0 1

/-- CustomReward.compute_final_reward: the weighted sum of the two stored
components, optionally renormalized to [0,1] over the weight sum, then
multiplied by the on-road indicator and by the not-crashed indicator. -/
def CustomReward.compute_final_reward (w_rl w_hs right_lane_reward high_speed_reward : ℚ)
    (normalize on_road crashed : Bool) : ℚ :=
  let reward := w_rl * right_lane_reward + w_hs * high_speed_reward
  let reward := if normalize then lmap reward (0, w_hs + w_rl) (0, 1) else reward
  reward * (if on_road then 1 else 0) * (if crashed then 0 else 1)

/-- CustomReward.reward for one low-level tick: compute both components
from the vehicle state and combine them.  The tolerance stored by
CustomReward.__init__ is (1/policy_frequency)*1.5. -/
def CustomReward.rewardTick (pf w_rl w_hs : ℚ) (reward_speed_range : ℚ × ℚ)
    (normalize : Bool) (lane : ℤ) (total_lanes : ℕ) (offset speed cos_heading : ℚ)
    (on_road crashed : Bool) : ℚ :=
  let tol := (1 / pf) * (3 / 2)
  CustomReward.compute_final_reward w_rl w_hs
    (CustomReward.calculate_lane_reward tol lane total_lanes offset)
    (CustomReward.calculate_speed_reward reward_speed_range speed cos_heading)
    normalize on_road crashed

/-- Modelled from the spec: the per-tick reward formula as the spec's
section 4.4 words it, for comparison with CustomReward.rewardTick.  The
lane component is current_lane_index / max(total_lanes - 1, 1) when the
lateral offset is strictly inside (-tolerance, tolerance) and 0 otherwise;
the speed component maps forward speed linearly to [0,1] and clips, but is
exactly 0 when the linear map exceeds 1; the weighted sum is optionally
renormalized to [0,1] over the theoretical maximum of the weighted sum and
the whole reward is 0 on any off-road or crashed tick. -/
def CustomReward.rewardSpec (pf w_rl w_hs : ℚ) (reward_speed_range : ℚ × ℚ)
    (normalize : Bool) (lane : ℤ) (total_lanes : ℕ) (offset speed cos_heading : ℚ)
    (on_road crashed : Bool) : ℚ :=
  if on_road = false ∨ crashed = true then 0
  else
    let tol := (1 / pf) * (3 / 2)
    let lane_comp :=
      if -tol < offset ∧ offset < tol then (lane : ℚ) / ((max ((total_lanes : ℤ) - 1) 1 : ℤ) : ℚ)
      else 0
    let speed_lin := lmap (speed * cos_heading) reward_speed_range (0, 1)
    let speed_comp := if 1 < speed_lin then 0 else clip speed_lin 0 1
    let weighted := w_rl * lane_comp + w_hs * speed_comp
    if normalize then lmap weighted (0, w_hs + w_rl) (0, 1) else weighted

/-! ## Concrete fixtures used to evaluate the definitions -/

/-- A concrete vehicle: lane 0, speed 5, centred, at the origin. -/
def vW : Vehicle :=
  { lane := 0, speed := 5, posX := 0, lane_offset := 0, heading := 0,
    acceleration := 0, steering := 0, on_road := true, crashed := false }

/-- A concrete configuration: 3 lanes, policy frequency 1. -/
def cfgW : Config := { lanes_count := 3, policy_frequency := 1 }

/-- A concrete simulator state. -/
def sW : EnvState := { vehicle := vW, config := cfgW }

/-- A constant observation. -/
def obsW : Obs := fun _ _ => 3

/-- A concrete fake simulator: each tick advances posX by one and pays the
scripted per-tick rewards 0.1, 0.2, 0.15, terminating on the third tick. -/
def envW : Env := fun s _ =>
  ({ s with vehicle := { s.vehicle with posX := s.vehicle.posX + 1 } },
   { obs := obsW
     reward := if s.vehicle.posX = 0 then 1 / 10 else if s.vehicle.posX = 1 then 1 / 5 else 3 / 20
     terminated := decide (s.vehicle.posX = 2)
     truncated := false
     info := [] })

/-- Fresh wrapper counters. -/
def caW : CA := ⟨0, 0, 0, 0, 0⟩

/-- The state after three envW ticks. -/
def sW3 : EnvState := { vehicle := { vW with posX := 3 }, config := cfgW }

/-- Step tuple of envW's first tick. -/
def oW1 : StepOut := ⟨obsW, 1 / 10, false, false, []⟩

/-- Step tuple of envW's second tick. -/
def oW2 : StepOut := ⟨obsW, 1 / 5, false, false, []⟩

/-- Step tuple of envW's third tick. -/
def oW3 : StepOut := ⟨obsW, 3 / 20, true, false, []⟩

/-- The counters after one macro-step of three ticks. -/
def caW' : CA := ⟨1, 3, 1, 3, 0⟩

/-- The info dictionary returned by that macro-step. -/
def infoW : Info :=
  [("HL_step_count", .int 1), ("LL_step_count", .int 3), ("pos_x", .rat 3), ("pos_y", .rat 3)]

/-- A state at the top speed bound, for the speed-substitution witness. -/
def sV : EnvState := { vehicle := { vW with speed := 40 }, config := cfgW }

/-- sW after covering twelve meters. -/
def sD : EnvState := { vehicle := { vW with posX := 12 }, config := cfgW }

/-- A state in lane 1 with a skewed heading and a live steering command. -/
def sH : EnvState :=
  { vehicle := { vW with lane := 1, heading := 7, steering := 2 }, config := cfgW }

/-- A standstill state, for the division-by-zero witness. -/
def sZ : EnvState := { vehicle := { vW with speed := 0 }, config := cfgW }

/-! ## Helper lemmas -/

theorem Info.lookup_setKey_self (i : Info) (k : String) (v : InfoVal) :
    Info.lookup (Info.setKey i k v) k = some v := by
  induction i with
  | nil => simp [Info.setKey, Info.lookup]
  | cons hd tl ih =>
    obtain ⟨k', v'⟩ := hd
    by_cases hk : k' = k
    · simp [Info.setKey, Info.lookup, hk]
    · simp [Info.setKey, Info.lookup, hk, ih]

theorem Info.lookup_setKey_ne (i : Info) (k k' : String) (v : InfoVal) (h : k' ≠ k) :
    Info.lookup (Info.setKey i k v) k' = Info.lookup i k' := by
  induction i with
  | nil => simp [Info.setKey, Info.lookup, Ne.symm h]
  | cons hd tl ih =>
    obtain ⟨k0, v0⟩ := hd
    by_cases hk : k0 = k
    · subst hk
      simp [Info.setKey, Info.lookup, Ne.symm h]
    · simp [Info.setKey, Info.lookup, hk, ih]

theorem Changer.step_count_of_step {ch ch' : Changer} {env : Env} {s s' : EnvState}
    {out : StepOut} (h : Changer.step ch env s = some (ch', s', out)) :
    ch'.step_count = ch.step_count + 1 := by
  cases ch with
  | lane c =>
    simp only [Changer.step] at h
    cases hc : c.choose_action s with
    | none => rw [hc] at h; cases h
    | some a =>
      rw [hc] at h
      simp only [Option.some.injEq, Prod.mk.injEq] at h
      obtain ⟨h1, -, -⟩ := h
      subst h1
      rfl
  | speed c =>
    simp only [Changer.step, Option.some.injEq, Prod.mk.injEq] at h
    obtain ⟨h1, -, -⟩ := h
    subst h1
    rfl

theorem CustomActions.subpolicies_step_count {s : EnvState} {a : ℤ} {ch : Changer}
    (h : CustomActions.subpolicies s a = some ch) : ch.step_count = 0 := by
  unfold CustomActions.subpolicies at h
  split_ifs at h <;>
    (simp only [Option.some.injEq] at h; subst h; rfl)

theorem CustomActions.chooseChanger_step_count {s : EnvState} {a : ℤ} {ch : Changer}
    (h : CustomActions.chooseChanger s a = some ch) : ch.step_count = 0 := by
  unfold CustomActions.chooseChanger at h
  cases hsub : CustomActions.subpolicies s a with
  | none => rw [hsub] at h; cases h
  | some ch0 =>
    rw [hsub] at h
    have h0 : ch0.step_count = 0 := CustomActions.subpolicies_step_count hsub
    cases ch0 with
    | lane c =>
      by_cases hf : CustomActions.lane_change_possible s c.change
      · simp only [hf, if_true, Option.some.injEq] at h
        subst h; exact h0
      · simp only [hf, if_false, Option.some.injEq] at h
        subst h; rfl
    | speed c =>
      by_cases hf : CustomActions.speed_change_possible s c.change
      · simp only [hf, if_true, Option.some.injEq] at h
        subst h; exact h0
      · simp only [hf, if_false, Option.some.injEq] at h
        subst h; rfl

theorem StepOut.forall_mem_of_getLast? {l : List StepOut} {p : StepOut}
    (hlast : l.getLast? = some p)
    (hdrop : ∀ o ∈ l.dropLast, o.terminated = false)
    (hp : p.terminated = false) : ∀ o ∈ l, o.terminated = false := by
  intro o ho
  have hne : l ≠ [] := by rintro rfl; cases hlast
  rw [← List.dropLast_append_getLast hne] at ho
  rcases List.mem_append.1 ho with hmem | hmem
  · exact hdrop o hmem
  · have hg : l.getLast hne = p := by
      have := List.getLast?_eq_getLast l hne
      rw [this] at hlast
      exact Option.some.inj hlast
    simp only [List.mem_singleton] at hmem
    rw [hmem, hg]
    exact hp

theorem CustomActions.tickLoop_inv (env : Env) (fuel : ℕ) :
    ∀ (ch : Changer) (s : EnvState) (prev : StepOut) (cum : ℚ) (outs : List StepOut)
      (chF : Changer) (sF : EnvState) (outF : StepOut) (cumF : ℚ) (outsF : List StepOut)
      (exitD : Bool),
      CustomActions.tickLoop env fuel ch s prev cum outs
          = some (chF, sF, outF, cumF, outsF, exitD) →
      outs.getLast? = some prev →
      cum = (outs.map (fun o => o.reward)).sum →
      ch.step_count = outs.length →
      (∀ o ∈ outs.dropLast, o.terminated = false) →
      outsF.getLast? = some outF
      ∧ cumF = (outsF.map (fun o => o.reward)).sum
      ∧ chF.step_count = outsF.length
      ∧ (∀ o ∈ outsF.dropLast, o.terminated = false)
      ∧ (exitD = true ∨ outF.terminated = true)
      ∧ outs.length ≤ outsF.length := by
  induction fuel with
  | zero =>
    intro ch s prev cum outs chF sF outF cumF outsF exitD hrun
    simp [CustomActions.tickLoop] at hrun
  | succ n ih =>
    intro ch s prev cum outs chF sF outF cumF outsF exitD hrun h1 h2 h3 h4
    rw [CustomActions.tickLoop] at hrun
    by_cases hg : ((ch.done s).1 || prev.terminated) = true
    · rw [if_pos hg] at hrun
      simp only [Option.some.injEq, Prod.mk.injEq] at hrun
      obtain ⟨e1, -, e3, e4, e5, e6⟩ := hrun
      subst e1; subst e3; subst e4; subst e5; subst e6
      refine ⟨h1, h2, h3, h4, ?_, le_refl _⟩
      rcases Bool.or_eq_true_iff.1 hg with hd | ht
      · exact Or.inl hd
      · exact Or.inr ht
    · rw [if_neg hg] at hrun
      have hgb : ((ch.done s).1 || prev.terminated) = false := by simpa using hg
      have hgf := Bool.or_eq_false_iff.1 hgb
      cases hstep : Changer.step ch env (ch.done s).2 with
      | none => rw [hstep] at hrun; cases hrun
      | some trip =>
        obtain ⟨ch', s'', out⟩ := trip
        rw [hstep] at hrun
        have hrec := ih ch' s'' out (cum + out.reward) (outs ++ [out])
          chF sF outF cumF outsF exitD hrun
          (by rw [List.getLast?_concat])
          (by simp [h2])
          (by rw [Changer.step_count_of_step hstep, h3]; simp)
          (by
            rw [List.dropLast_concat]
            exact StepOut.forall_mem_of_getLast? h1 h4 hgf.2)
        refine ⟨hrec.1, hrec.2.1, hrec.2.2.1, hrec.2.2.2.1, hrec.2.2.2.2.1, ?_⟩
        calc outs.length ≤ (outs ++ [out]).length := by simp
          _ ≤ outsF.length := hrec.2.2.2.2.2

theorem CustomActions.step_ok_elim {env : Env} {fuel : ℕ} {ca : CA} {s : EnvState} {a : ℤ}
    {ca' : CA} {sF : EnvState} {final : StepOut} {retInfo : Info} {cum : ℚ}
    {outs : List StepOut} {ticks : ℕ} {exitD : Bool}
    (h : CustomActions.step env fuel ca s a
        = .ok ca' sF final retInfo cum outs ticks exitD) :
    ∃ ch ch1 s1 out1 chF,
      CustomActions.chooseChanger s a = some ch
      ∧ Changer.step ch env s = some (ch1, s1, out1)
      ∧ CustomActions.tickLoop env fuel ch1 s1 out1 out1.reward [out1]
          = some (chF, sF, final, cum, outs, exitD)
      ∧ ticks = chF.step_count
      ∧ ca' = ⟨ca.HL_step_count + 1, ca.LL_step_count + chF.step_count,
          ca.timesteps_HL + 1, ca.timesteps_LL + chF.step_count, ca.episode_count⟩
      ∧ retInfo = Info.setKey (Info.setKey (Info.setKey (Info.setKey final.info
          "HL_step_count" (.int ((ca.HL_step_count + 1 : ℕ) : ℤ)))
          "LL_step_count" (.int ((ca.LL_step_count + chF.step_count : ℕ) : ℤ)))
          "pos_x" (.rat (final.obs 0 1)))
          "pos_y" (.rat (final.obs 0 2)) := by
  unfold CustomActions.step at h
  split at h
  · cases h
  next ch hch =>
    split at h
    · cases h
    next ch1 s1 out1 hstep =>
      split at h
      · cases h
      next chF sF2 outF cumF outsF exitD2 hloop =>
        simp only [StepResult.ok.injEq] at h
        obtain ⟨e1, e2, e3, e4, e5, e6, e7, e8⟩ := h
        subst e2; subst e3; subst e5; subst e6; subst e7; subst e8
        exact ⟨ch, ch1, s1, out1, chF, hch, hstep, hloop, rfl, e1.symm, e4.symm⟩

theorem CustomActions.step_ok_spec {env : Env} {fuel : ℕ} {ca : CA} {s : EnvState} {a : ℤ}
    {ca' : CA} {sF : EnvState} {final : StepOut} {retInfo : Info} {cum : ℚ}
    {outs : List StepOut} {ticks : ℕ} {exitD : Bool}
    (h : CustomActions.step env fuel ca s a
        = .ok ca' sF final retInfo cum outs ticks exitD) :
    1 ≤ outs.length
    ∧ ticks = outs.length
    ∧ cum = (outs.map (fun o => o.reward)).sum
    ∧ outs.getLast? = some final
    ∧ (∀ o ∈ outs.dropLast, o.terminated = false)
    ∧ (exitD = true ∨ final.terminated = true)
    ∧ ca' = ⟨ca.HL_step_count + 1, ca.LL_step_count + ticks,
        ca.timesteps_HL + 1, ca.timesteps_LL + ticks, ca.episode_count⟩
    ∧ retInfo = Info.setKey (Info.setKey (Info.setKey (Info.setKey final.info
        "HL_step_count" (.int ((ca.HL_step_count + 1 : ℕ) : ℤ)))
        "LL_step_count" (.int ((ca.LL_step_count + ticks : ℕ) : ℤ)))
        "pos_x" (.rat (final.obs 0 1)))
        "pos_y" (.rat (final.obs 0 2)) := by
  obtain ⟨ch, ch1, s1, out1, chF, hch, hstep, hloop, hticks, hca, hinfo⟩ :=
    CustomActions.step_ok_elim h
  have hc1 : ch1.step_count = 1 := by
    rw [Changer.step_count_of_step hstep, CustomActions.chooseChanger_step_count hch]
  have hinv := CustomActions.tickLoop_inv env fuel ch1 s1 out1 out1.reward [out1]
    chF sF final cum outs exitD hloop
    (by simp)
    (by simp)
    (by simpa using hc1)
    (by simp)
  obtain ⟨ilast, icum, icount, idrop, iexit, ilen⟩ := hinv
  have hlen : 1 ≤ outs.length := by simpa using ilen
  have hticks' : ticks = outs.length := by rw [hticks, icount]
  refine ⟨hlen, hticks', icum, ilast, idrop, iexit, ?_, ?_⟩
  · rw [hca, hticks']
    rw [icount]
  · rw [hinfo, hticks', icount]

/-- C2: every macro-step that returns ticks the chosen controller at least
once; its cumulative reward is the exact sum of the per-tick rewards
returned by the wrapped environment across every low-level tick of the
macro-step; and the returned observation, terminated, truncated and info
are those of the final low-level tick, the info dictionary being that
final tick's info augmented in place with the dispatcher's bookkeeping
keys. -/
theorem C2_cumulative_reward (env : Env) (fuel : ℕ) (ca : CA) (s : EnvState) (a : ℤ)
    (ca' : CA) (sF : EnvState) (final : StepOut) (retInfo : Info) (cum : ℚ)
    (outs : List StepOut) (ticks : ℕ) (exitD : Bool)
    (h : CustomActions.step env fuel ca s a
        = .ok ca' sF final retInfo cum outs ticks exitD) :
    1 ≤ outs.length
    ∧ cum = (outs.map (fun o => o.reward)).sum
    ∧ outs.getLast? = some final
    ∧ retInfo = Info.setKey (Info.setKey (Info.setKey (Info.setKey final.info
        "HL_step_count" (.int ((ca.HL_step_count + 1 : ℕ) : ℤ)))
        "LL_step_count" (.int ((ca.LL_step_count + ticks : ℕ) : ℤ)))
        "pos_x" (.rat (final.obs 0 1)))
        "pos_y" (.rat (final.obs 0 2)) := by
  obtain ⟨l1, l2, l3, l4, l5, l6, l7, l8⟩ := CustomActions.step_ok_spec h
  exact ⟨l1, l3, l4, l8⟩

/-- Witness for C2 on the scripted three-tick run with per-tick rewards
0.1, 0.2, 0.15 summing to 0.45. -/
theorem C2_witness :
    1 ≤ ([oW1, oW2, oW3] : List StepOut).length
    ∧ (9 / 20 : ℚ) = (([oW1, oW2, oW3] : List StepOut).map (fun o => o.reward)).sum
    ∧ ([oW1, oW2, oW3] : List StepOut).getLast? = some oW3
    ∧ infoW = Info.setKey (Info.setKey (Info.setKey (Info.setKey oW3.info
        "HL_step_count" (.int ((caW.HL_step_count + 1 : ℕ) : ℤ)))
        "LL_step_count" (.int ((caW.LL_step_count + 3 : ℕ) : ℤ)))
        "pos_x" (.rat (oW3.obs 0 1)))
        "pos_y" (.rat (oW3.obs 0 2)) :=
  C2_cumulative_reward envW 10 caW sW 0 caW' sW3 oW3 infoW (9 / 20) [oW1, oW2, oW3] 3 false
    (by with_unfolding_all rfl)

/-- C3: on every macro-step that returns, the recorded tick count equals
exactly the number of executed ticks; every tick before the final one
reported terminated = false, so the loop stops on the tick that reports
termination and performs no further ticks; the returned step tuple is the
final tick's; and the loop exits only because the controller reported
completion or the episode reported termination. -/
theorem C3_stops_on_termination (env : Env) (fuel : ℕ) (ca : CA) (s : EnvState) (a : ℤ)
    (ca' : CA) (sF : EnvState) (final : StepOut) (retInfo : Info) (cum : ℚ)
    (outs : List StepOut) (ticks : ℕ) (exitD : Bool)
    (h : CustomActions.step env fuel ca s a
        = .ok ca' sF final retInfo cum outs ticks exitD) :
    ticks = outs.length
    ∧ (∀ o ∈ outs.dropLast, o.terminated = false)
    ∧ outs.getLast? = some final
    ∧ (exitD = true ∨ final.terminated = true) := by
  obtain ⟨l1, l2, l3, l4, l5, l6, l7, l8⟩ := CustomActions.step_ok_spec h
  exact ⟨l2, l5, l4, l6⟩

/-- Witness for C3 on the scripted run whose third tick terminates the
episode: the tick count is 3 and the loop stops on that tick. -/
theorem C3_witness :
    (3 : ℕ) = ([oW1, oW2, oW3] : List StepOut).length
    ∧ (∀ o ∈ ([oW1, oW2, oW3] : List StepOut).dropLast, o.terminated = false)
    ∧ ([oW1, oW2, oW3] : List StepOut).getLast? = some oW3
    ∧ (false = true ∨ oW3.terminated = true) :=
  C3_stops_on_termination envW 10 caW sW 0 caW' sW3 oW3 infoW (9 / 20) [oW1, oW2, oW3] 3 false
    (by with_unfolding_all rfl)

/-- C8: every macro-step that returns increments the high-level step
counter by exactly 1 no matter how many low-level ticks ran, and the
returned info dictionary carries the high-level step count, the episode's
cumulative low-level step count (grown by exactly the ticks of this
macro-step) and the vehicle's x/y position read from the final
observation. -/
theorem C8_step_counters (env : Env) (fuel : ℕ) (ca : CA) (s : EnvState) (a : ℤ)
    (ca' : CA) (sF : EnvState) (final : StepOut) (retInfo : Info) (cum : ℚ)
    (outs : List StepOut) (ticks : ℕ) (exitD : Bool)
    (h : CustomActions.step env fuel ca s a
        = .ok ca' sF final retInfo cum outs ticks exitD) :
    ca'.HL_step_count = ca.HL_step_count + 1
    ∧ ca'.LL_step_count = ca.LL_step_count + ticks
    ∧ ticks = outs.length
    ∧ Info.lookup retInfo "HL_step_count" = some (.int ((ca.HL_step_count + 1 : ℕ) : ℤ))
    ∧ Info.lookup retInfo "LL_step_count" = some (.int ((ca.LL_step_count + ticks : ℕ) : ℤ))
    ∧ Info.lookup retInfo "pos_x" = some (.rat (final.obs 0 1))
    ∧ Info.lookup retInfo "pos_y" = some (.rat (final.obs 0 2)) := by
  obtain ⟨l1, l2, l3, l4, l5, l6, l7, l8⟩ := CustomActions.step_ok_spec h
  subst l8
  refine ⟨by rw [l7], by rw [l7], l2, ?_, ?_, ?_, ?_⟩
  · rw [Info.lookup_setKey_ne _ _ _ _ (by decide), Info.lookup_setKey_ne _ _ _ _ (by decide),
      Info.lookup_setKey_ne _ _ _ _ (by decide), Info.lookup_setKey_self]
  · rw [Info.lookup_setKey_ne _ _ _ _ (by decide), Info.lookup_setKey_ne _ _ _ _ (by decide),
      Info.lookup_setKey_self]
  · rw [Info.lookup_setKey_ne _ _ _ _ (by decide), Info.lookup_setKey_self]
  · rw [Info.lookup_setKey_self]

/-- Witness for C8 on the scripted three-tick run. -/
theorem C8_witness :
    caW'.HL_step_count = caW.HL_step_count + 1
    ∧ caW'.LL_step_count = caW.LL_step_count + 3
    ∧ (3 : ℕ) = ([oW1, oW2, oW3] : List StepOut).length
    ∧ Info.lookup infoW "HL_step_count" = some (.int ((caW.HL_step_count + 1 : ℕ) : ℤ))
    ∧ Info.lookup infoW "LL_step_count" = some (.int ((caW.LL_step_count + 3 : ℕ) : ℤ))
    ∧ Info.lookup infoW "pos_x" = some (.rat (oW3.obs 0 1))
    ∧ Info.lookup infoW "pos_y" = some (.rat (oW3.obs 0 2)) :=
  C8_step_counters envW 10 caW sW 0 caW' sW3 oW3 infoW (9 / 20) [oW1, oW2, oW3] 3 false
    (by with_unfolding_all rfl)

/-- C1: whenever the looked-up subpolicy is a lane change whose destination
lane current_lane + change falls outside [0, lanes_count - 1], the
dispatcher executes a zero-change LaneChanger instead; whenever it is a
speed change whose destination speed current_speed + change falls outside
[MIN_SPEED, MAX_SPEED], the dispatcher executes a zero-change SpeedChanger
instead; and a macro-action whose subpolicy lookup succeeds is never
rejected with a KeyError. -/
theorem C1_infeasible_substitution :
    (∀ (s : EnvState) (a : ℤ) (c : LaneChanger),
      CustomActions.subpolicies s a = some (.lane c) →
      ¬(0 ≤ s.vehicle.lane + c.change
          ∧ s.vehicle.lane + c.change ≤ s.config.lanes_count - 1) →
      CustomActions.chooseChanger s a = some (.lane (LaneChanger.init s 0 none)))
    ∧ (∀ (s : EnvState) (a : ℤ) (c : SpeedChanger),
      CustomActions.subpolicies s a = some (.speed c) →
      ¬(Vehicle.MIN_SPEED ≤ s.vehicle.speed + (c.change : ℚ)
          ∧ s.vehicle.speed + (c.change : ℚ) ≤ Vehicle.MAX_SPEED) →
      CustomActions.chooseChanger s a = some (.speed (SpeedChanger.init s 0)))
    ∧ (∀ (env : Env) (fuel : ℕ) (ca : CA) (s : EnvState) (a : ℤ) (ch : Changer),
      CustomActions.subpolicies s a = some ch →
      ∀ (ca2 : CA) (s2 : EnvState),
        CustomActions.step env fuel ca s a ≠ .keyError ca2 s2) := by
  refine ⟨?_, ?_, ?_⟩
  · intro s a c hsub hinf
    have hb : CustomActions.lane_change_possible s c.change = false :=
      decide_eq_false hinf
    unfold CustomActions.chooseChanger
    rw [hsub]
    simp [hb]
  · intro s a c hsub hinf
    have hb : CustomActions.speed_change_possible s c.change = false :=
      decide_eq_false hinf
    unfold CustomActions.chooseChanger
    rw [hsub]
    simp [hb]
  · intro env fuel ca s a ch hsub ca2 s2
    have hsome : ∃ ch2, CustomActions.chooseChanger s a = some ch2 := by
      unfold CustomActions.chooseChanger
      rw [hsub]
      exact ⟨_, rfl⟩
    obtain ⟨ch2, hch2⟩ := hsome
    unfold CustomActions.step
    rw [hch2]
    cases hstep : Changer.step ch2 env s with
    | none => simp [hstep]
    | some trip =>
      obtain ⟨ch1, s1, out1⟩ := trip
      cases hloop : CustomActions.tickLoop env fuel ch1 s1 out1 out1.reward [out1] with
      | none => simp [hstep, hloop]
      | some res =>
        obtain ⟨chF, sF, outF, cumF, outsF, exitD⟩ := res
        simp [hstep, hloop]

/-- Witness for C1: from lane 0 of a 3-lane road the change-left request
(destination lane -1) is replaced by a hold-lane controller; at the top
speed 40 the speed-up request (destination speed 41) is replaced by a
hold-speed controller; and action 1 is not rejected. -/
theorem C1_witness :
    CustomActions.chooseChanger sW 1 = some (.lane (LaneChanger.init sW 0 none))
    ∧ CustomActions.chooseChanger sV 4 = some (.speed (SpeedChanger.init sV 0))
    ∧ CustomActions.step envW 10 caW sW 1 ≠ .keyError caW sW :=
  ⟨C1_infeasible_substitution.1 sW 1 (LaneChanger.init sW (-1) none)
      (by with_unfolding_all rfl) (by with_unfolding_all decide),
   C1_infeasible_substitution.2.1 sV 4 (SpeedChanger.init sV 1)
      (by with_unfolding_all rfl) (by with_unfolding_all decide),
   C1_infeasible_substitution.2.2 envW 10 caW sW 1
      (.lane (LaneChanger.init sW (-1) none)) (by with_unfolding_all rfl) caW sW⟩

/-- C10: for every discrete action id outside {0, 1, 2, 3, 4} the subpolicy
lookup fails and, whatever the environment, the fuel and the wrapper
counters, the dispatcher's step raises the KeyError before any simulator
tick and returns with its counters and the simulator state unchanged. -/
theorem C10_key_error (a : ℤ) (h0 : a ≠ 0) (h1 : a ≠ 1) (h2 : a ≠ 2) (h3 : a ≠ 3)
    (h4 : a ≠ 4) (env : Env) (fuel : ℕ) (ca : CA) (s : EnvState) :
    CustomActions.subpolicies s a = none
    ∧ CustomActions.step env fuel ca s a = .keyError ca s := by
  have hsub : CustomActions.subpolicies s a = none := by
    unfold CustomActions.subpolicies
    simp [h0, h1, h2, h3, h4]
  refine ⟨hsub, ?_⟩
  unfold CustomActions.step CustomActions.chooseChanger
  rw [hsub]

/-- Witness for C10 at the out-of-range action id 7. -/
theorem C10_witness :
    CustomActions.subpolicies sW 7 = none
    ∧ CustomActions.step envW 3 caW sW 7 = .keyError caW sW :=
  C10_key_error 7 (by decide) (by decide) (by decide) (by decide) (by decide) envW 3 caW sW

theorem SpeedChanger.done_fst (c : SpeedChanger) (s : EnvState) :
    (c.done s).1 = decide (c.desired_speed - c.speed_offset ≤ s.vehicle.speed
      ∧ s.vehicle.speed ≤ c.desired_speed) := rfl

theorem SpeedChanger.done_snd (c : SpeedChanger) (s : EnvState) :
    (c.done s).2 = if (c.done s).1
      then { s with vehicle := { s.vehicle with acceleration := 0 } } else s := rfl

/-- C4 counterexample: at policy_frequency 1 and construction speed 5 with
delta +1 (desired speed 6), the current speed 5 makes done() return true,
yet 5 does not lie in the claimed half-open interval
(desired - tolerance, desired] either with the claimed tolerance of half a
control-period's speed change at acceleration magnitude 0.1 (giving
(5.95, 6]) or even with the code's own stored tolerance read as an open
left end (giving (5, 6]). -/
theorem C4_counterexample :
    ((SpeedChanger.init sW 1).done sW).1 = true
    ∧ ¬((SpeedChanger.init sW 1).desired_speed
        - 1 / 10 * (1 / sW.config.policy_frequency) / 2 < sW.vehicle.speed)
    ∧ ¬((SpeedChanger.init sW 1).desired_speed
        - (SpeedChanger.init sW 1).speed_offset < sW.vehicle.speed) := by
  with_unfolding_all decide

/-- C4 (amended): for every SpeedChanger, whose desired_speed is fixed at
construction as current speed + delta, done() returns true iff the current
speed lies in the closed interval
[desired_speed - tolerance, desired_speed] with tolerance equal to one
control period 1/policy_frequency, and done() sets the commanded
acceleration on the simulator state to exactly 0 when it returns true and
leaves the state unchanged otherwise. -/
theorem C4_amended_closed_interval (s0 : EnvState) (change : ℤ) (s : EnvState) :
    (((SpeedChanger.init s0 change).done s).1 = true ↔
      (s0.vehicle.speed + (change : ℚ)) - 1 / s0.config.policy_frequency ≤ s.vehicle.speed
        ∧ s.vehicle.speed ≤ s0.vehicle.speed + (change : ℚ))
    ∧ (((SpeedChanger.init s0 change).done s).1 = true →
      ((SpeedChanger.init s0 change).done s).2
        = { s with vehicle := { s.vehicle with acceleration := 0 } })
    ∧ (((SpeedChanger.init s0 change).done s).1 = false →
      ((SpeedChanger.init s0 change).done s).2 = s) := by
  refine ⟨?_, ?_, ?_⟩
  · rw [SpeedChanger.done_fst]
    simp only [SpeedChanger.init, decide_eq_true_eq]
  · intro ht
    rw [SpeedChanger.done_snd, ht]
    simp
  · intro hf
    rw [SpeedChanger.done_snd, hf]
    simp

/-- Witness for the amended C4: at desired speed 6 with tolerance 1, the
boundary speed 5 completes and the commanded acceleration is zeroed. -/
theorem C4_witness :
    ((SpeedChanger.init sW 1).done sW).1 = true
    ∧ ((SpeedChanger.init sW 1).done sW).2
      = { sW with vehicle := { sW.vehicle with acceleration := 0 } } :=
  ⟨(C4_amended_closed_interval sW 1 sW).1.mpr
      ⟨by with_unfolding_all decide, by with_unfolding_all decide⟩,
   (C4_amended_closed_interval sW 1 sW).2.1
      ((C4_amended_closed_interval sW 1 sW).1.mpr
        ⟨by with_unfolding_all decide, by with_unfolding_all decide⟩)⟩

theorem LaneChanger.done_align_false {c : LaneChanger} {s : EnvState}
    (h : ¬(c.destination_lane = s.vehicle.lane
      ∧ c.lane_position_tolerance > s.vehicle.lane_offset
      ∧ s.vehicle.lane_offset > -c.lane_position_tolerance)) :
    c.done s = (false, s) := by
  unfold LaneChanger.done
  rw [decide_eq_false h]
  simp

theorem LaneChanger.done_align_zero {c : LaneChanger} {s : EnvState}
    (h : c.destination_lane = s.vehicle.lane
      ∧ c.lane_position_tolerance > s.vehicle.lane_offset
      ∧ s.vehicle.lane_offset > -c.lane_position_tolerance)
    (h0 : c.change = 0) :
    c.done s = (decide (s.vehicle.posX - c.vehicle_posX ≥ c.target_distance), s) := by
  unfold LaneChanger.done
  rw [decide_eq_true h, h0]
  simp

theorem LaneChanger.done_align_nonzero {c : LaneChanger} {s : EnvState}
    (h : c.destination_lane = s.vehicle.lane
      ∧ c.lane_position_tolerance > s.vehicle.lane_offset
      ∧ s.vehicle.lane_offset > -c.lane_position_tolerance)
    (h0 : c.change ≠ 0) :
    c.done s = (true, LaneChanger.reset_after_change s) := by
  unfold LaneChanger.done
  rw [decide_eq_true h]
  have hbe : (c.change == 0) = false := by simp [h0]
  rw [hbe]
  simp

/-- C5: a LaneChanger with change = 0 and positive target distance reports
completion iff lane alignment holds (destination lane reached and lateral
offset strictly inside the tolerance band) and the covered distance
current_position_x - start_position_x has reached target_distance; in
particular alignment alone never signals completion. -/
theorem C5_forward_needs_distance (c : LaneChanger) (s : EnvState)
    (h0 : c.change = 0) (hd : 0 < c.target_distance) :
    (c.done s).1 = true ↔
      (c.destination_lane = s.vehicle.lane
        ∧ s.vehicle.lane_offset < c.lane_position_tolerance
        ∧ -c.lane_position_tolerance < s.vehicle.lane_offset
        ∧ s.vehicle.posX - c.vehicle_posX ≥ c.target_distance) := by
  by_cases ha : (c.destination_lane = s.vehicle.lane
      ∧ c.lane_position_tolerance > s.vehicle.lane_offset
      ∧ s.vehicle.lane_offset > -c.lane_position_tolerance)
  · rw [LaneChanger.done_align_zero ha h0]
    simp only [decide_eq_true_eq]
    obtain ⟨a1, a2, a3⟩ := ha
    constructor
    · intro hdist
      exact ⟨a1, a2, a3, hdist⟩
    · intro hconj
      exact hconj.2.2.2
  · rw [LaneChanger.done_align_false ha]
    simp only [Bool.false_eq_true, false_iff]
    intro hconj
    exact ha ⟨hconj.1, hconj.2.1, hconj.2.2.1⟩

/-- Witness for C5: the forward-10-meters controller started at x = 0 in
lane 0 reports completion at x = 12. -/
theorem C5_witness : ((LaneChanger.init sW 0 (some 10)).done sD).1 = true :=
  (C5_forward_needs_distance (LaneChanger.init sW 0 (some 10)) sD rfl
      (by with_unfolding_all decide)).mpr
    ⟨by with_unfolding_all decide, by with_unfolding_all decide,
     by with_unfolding_all decide, by with_unfolding_all decide⟩

/-- C6: a LaneChanger with change different from 0 reports completion as
soon as lane alignment holds (destination lane reached and lateral offset
strictly inside the tolerance band); on completion it sets the vehicle's
heading to 0 and the commanded steering to 0 and modifies no other
vehicle-state field, and it leaves the state untouched otherwise; the
tolerance stored at construction is 1.5/policy_frequency. -/
theorem C6_lane_change_alignment :
    (∀ (c : LaneChanger) (s : EnvState), c.change ≠ 0 →
      ((c.done s).1 = true ↔
        (c.destination_lane = s.vehicle.lane
          ∧ s.vehicle.lane_offset < c.lane_position_tolerance
          ∧ -c.lane_position_tolerance < s.vehicle.lane_offset))
      ∧ ((c.done s).1 = true →
        (c.done s).2 = { s with vehicle := { s.vehicle with heading := 0, steering := 0 } })
      ∧ ((c.done s).1 = false → (c.done s).2 = s))
    ∧ (∀ (s0 : EnvState) (ch : ℤ) (d : Option ℚ),
      (LaneChanger.init s0 ch d).lane_position_tolerance
        = 3 / 2 / s0.config.policy_frequency) := by
  constructor
  · intro c s hch
    by_cases ha : (c.destination_lane = s.vehicle.lane
        ∧ c.lane_position_tolerance > s.vehicle.lane_offset
        ∧ s.vehicle.lane_offset > -c.lane_position_tolerance)
    · rw [LaneChanger.done_align_nonzero ha hch]
      refine ⟨?_, ?_, ?_⟩
      · exact iff_of_true rfl ⟨ha.1, ha.2.1, ha.2.2⟩
      · intro _; rfl
      · intro hfalse; cases hfalse
    · rw [LaneChanger.done_align_false ha]
      refine ⟨?_, ?_, ?_⟩
      · simp only [Bool.false_eq_true, false_iff]
        intro hconj
        exact ha ⟨hconj.1, hconj.2.1, hconj.2.2⟩
      · intro hfalse; cases hfalse
      · intro _; rfl
  · intro s0 ch d
    show (1 / s0.config.policy_frequency) * (3 / 2) = 3 / 2 / s0.config.policy_frequency
    ring

/-- Witness for C6: the change-right controller completes in lane 1 and
straightens heading and steering, leaving every other field intact. -/
theorem C6_witness :
    ((LaneChanger.init sW 1 none).done sH).1 = true
    ∧ ((LaneChanger.init sW 1 none).done sH).2
      = { sH with vehicle := { sH.vehicle with heading := 0, steering := 0 } } :=
  ⟨((C6_lane_change_alignment.1 (LaneChanger.init sW 1 none) sH
        (by with_unfolding_all decide)).1).mpr
      ⟨by with_unfolding_all decide, by with_unfolding_all decide,
       by with_unfolding_all decide⟩,
   (C6_lane_change_alignment.1 (LaneChanger.init sW 1 none) sH
        (by with_unfolding_all decide)).2.1
      (((C6_lane_change_alignment.1 (LaneChanger.init sW 1 none) sH
          (by with_unfolding_all decide)).1).mpr
        ⟨by with_unfolding_all decide, by with_unfolding_all decide,
         by with_unfolding_all decide⟩)⟩

/-- C7: on every LaneChanger tick the steering command is +0.5/speed when
the destination lane is beyond the current lane, -0.5/speed when it is
before it, and 0 when the vehicle is already in the destination lane; the
acceleration always passes through unchanged from the simulator's live
action state; and the unguarded division makes the tick fail with a
ZeroDivisionError exactly when a lane difference remains and the current
speed is 0. -/
theorem C7_steering_formula (c : LaneChanger) (s : EnvState) :
    (s.vehicle.lane < c.destination_lane → s.vehicle.speed ≠ 0 →
      c.choose_action s = some (s.vehicle.acceleration, 1 / 2 / s.vehicle.speed))
    ∧ (c.destination_lane < s.vehicle.lane → s.vehicle.speed ≠ 0 →
      c.choose_action s = some (s.vehicle.acceleration, -(1 / 2 / s.vehicle.speed)))
    ∧ (c.destination_lane = s.vehicle.lane →
      c.choose_action s = some (s.vehicle.acceleration, 0))
    ∧ (c.destination_lane ≠ s.vehicle.lane → s.vehicle.speed = 0 →
      c.choose_action s = none) := by
  unfold LaneChanger.choose_action
  refine ⟨?_, ?_, ?_, ?_⟩
  · intro hlt hs
    rw [if_pos (by omega), if_neg hs]
  · intro hlt hs
    rw [if_neg (by omega), if_pos (by omega), if_neg hs]
  · intro heq
    rw [if_neg (by omega), if_neg (by omega)]
  · intro hne hs
    by_cases hlt : s.vehicle.lane < c.destination_lane
    · rw [if_pos (by omega), if_pos hs]
    · rw [if_neg (by omega), if_pos (by omega), if_pos hs]

/-- Witness for C7: with destination lane 1 from lane 0 at speed 5 the tick
issues steering 0.1 with pass-through acceleration, and at speed 0 it
fails with the division by zero. -/
theorem C7_witness :
    (LaneChanger.init sW 1 none).choose_action sW
      = some (sW.vehicle.acceleration, 1 / 2 / sW.vehicle.speed)
    ∧ (LaneChanger.init sW 1 none).choose_action sZ = none :=
  ⟨(C7_steering_formula (LaneChanger.init sW 1 none) sW).1
      (by with_unfolding_all decide) (by with_unfolding_all decide),
   (C7_steering_formula (LaneChanger.init sW 1 none) sZ).2.2.2
      (by with_unfolding_all decide) (by with_unfolding_all decide)⟩

/-- C9: with the Reward Shaper enabled, the per-tick reward computed by the
code equals the spec's formula: the weighted sum of the lane-centering
component (current_lane_index / max(total_lanes - 1, 1) when the lateral
offset is strictly inside the tolerance band, 0 otherwise) and the speed
component (forward speed linearly mapped to [0,1] and clipped, but exactly
0 when the linear map exceeds 1), optionally renormalized to [0,1] over
the weight sum; and it is exactly 0 on any off-road or crashed tick. -/
theorem C9_reward_formula (pf w_rl w_hs : ℚ) (range : ℚ × ℚ) (normalize : Bool)
    (lane : ℤ) (total_lanes : ℕ) (offset speed cos_heading : ℚ)
    (on_road crashed : Bool) :
    CustomReward.rewardTick pf w_rl w_hs range normalize lane total_lanes offset
        speed cos_heading on_road crashed
      = CustomReward.rewardSpec pf w_rl w_hs range normalize lane total_lanes offset
        speed cos_heading on_road crashed
    ∧ (on_road = false ∨ crashed = true →
      CustomReward.rewardTick pf w_rl w_hs range normalize lane total_lanes offset
        speed cos_heading on_road crashed = 0) := by
  constructor
  · cases on_road <;> cases crashed <;>
      simp [CustomReward.rewardTick, CustomReward.rewardSpec,
        CustomReward.compute_final_reward, CustomReward.calculate_lane_reward,
        CustomReward.calculate_speed_reward, and_comm]
  · intro hz
    unfold CustomReward.rewardTick CustomReward.compute_final_reward
    rcases hz with hz | hz
    · rw [hz]
      simp
    · rw [hz]
      simp

/-- Witness for C9: a crashed tick earns exactly 0 whatever the other
components. -/
theorem C9_witness :
    CustomReward.rewardTick 1 (3 / 10) (7 / 10) (1, 2) false 0 3 0 1 1 true true = 0 :=
  (C9_reward_formula 1 (3 / 10) (7 / 10) (1, 2) false 0 3 0 1 1 true true).2 (Or.inr rfl)

end RLAgent
